import Mathlib

/-!
Verification of the supplier-discovery pipeline of this repository
(`app/services/supplier_search.py`, `app/services/search_orchestrator.py`,
`app/services/serp_service.py`, `app/services/location_service.py`).

All regular expressions used by the pipeline are pure concatenations of
quantified character classes, so they are embedded as lists of quantified
class atoms, with a greedy backtracking matcher and a scanner reproducing
Python `re.findall` semantics (leftmost match, greedy quantifiers with
backtracking, non-overlapping continuation after each match).
-/

/-- Python whitespace class `\s` (the ASCII part, which covers every string
occurring in this code base). -/
def pyIsSpace (c : Char) : Bool :=
  c = ' ' || c = '\t' || c = '\n' || c = '\x0d' || c = '\x0b' || c = '\x0c'

/-- ASCII and Cyrillic (`А`-`Я`) lower-casing, mirroring what Python case
folding does on the alphabets appearing in the patterns of this repository. -/
def lowerChar (c : Char) : Char :=
  if ('A' ≤ c ∧ c ≤ 'Z') ∨ ('А' ≤ c ∧ c ≤ 'Я') then Char.ofNat (c.toNat + 32)
  else c

/-- ASCII and Cyrillic (`а`-`я`) upper-casing, companion of `lowerChar`. -/
def upperChar (c : Char) : Char :=
  if ('a' ≤ c ∧ c ≤ 'z') ∨ ('а' ≤ c ∧ c ≤ 'я') then Char.ofNat (c.toNat - 32)
  else c

/-- A character class: a union of inclusive character ranges. -/
structure CClass where
  ranges : List (Char × Char)
deriving DecidableEq

/-- Class membership; with `ci` set the test is case-insensitive
(`re.IGNORECASE`). -/
def CClass.test (ci : Bool) (cc : CClass) (c : Char) : Bool :=
  cc.ranges.any (fun r => r.1 ≤ c && c ≤ r.2)
  || (ci && (cc.ranges.any (fun r => r.1 ≤ lowerChar c && lowerChar c ≤ r.2)
      || cc.ranges.any (fun r => r.1 ≤ upperChar c && upperChar c ≤ r.2)))

/-- A quantified character class: `cls{lo,hi}` (`hi = none` means unbounded). -/
structure Atom where
  cls : CClass
  lo : Nat
  hi : Option Nat
deriving DecidableEq

/-- Length of the maximal run of characters of `cc` at the head of `s`. -/
def spanCount (ci : Bool) (cc : CClass) : List Char → Nat
  | [] => 0
  | c :: rest => if CClass.test ci cc c then spanCount ci cc rest + 1 else 0

/-- Greedy quantifier with backtracking: try to consume `k` characters of the
current class, largest candidate first, then match the continuation `next`;
fails below the lower bound `lo`. Returns the total matched length. -/
def tryCounts (next : List Char → Option Nat) (s : List Char) (lo : Nat) : Nat → Option Nat
  | 0 => if lo = 0 then next s else none
  | k + 1 =>
    if k + 1 < lo then none
    else
      match next (s.drop (k + 1)) with
      | some n => some (k + 1 + n)
      | none => tryCounts next s lo k

/-- Match a concatenation of atoms at the head of `s`; returns the length of
the (leftmost-greedy, Python-style) match. -/
def matchAtoms (ci : Bool) : List Atom → List Char → Option Nat
  | [], _ => some 0
  | a :: rest, s =>
    let m := spanCount ci a.cls s
    let hi := match a.hi with
      | none => m
      | some h => min h m
    tryCounts (matchAtoms ci rest) s a.lo hi

/-- Scanner of `re.findall`: try each position left to right, emit each match
and continue after it (one character ahead after an empty match). -/
def findallGo (ci : Bool) (re : List Atom) : Nat → List Char → List (List Char)
  | 0, _ => []
  | fuel + 1, s =>
    match matchAtoms ci re s with
    | some (n + 1) => s.take (n + 1) :: findallGo ci re fuel (s.drop (n + 1))
    | some 0 =>
      match s with
      | [] => [[]]
      | _ :: t => [] :: findallGo ci re fuel t
    | none =>
      match s with
      | [] => []
      | _ :: t => findallGo ci re fuel t

/-- `re.findall(pattern, text)` (with `re.IGNORECASE` when `ci` is set). -/
def findall (ci : Bool) (re : List Atom) (text : String) : List String :=
  (findallGo ci re (text.data.length + 1) text.data).map String.mk

/-- Atom matching a single literal character. -/
def lit (c : Char) : Atom := ⟨⟨[(c, c)]⟩, 1, some 1⟩

/-- Atoms matching a literal string. -/
def litStr (s : String) : List Atom := s.data.map lit

/-- `cls*`. -/
def star (cc : CClass) : Atom := ⟨cc, 0, none⟩

/-- `cls+`. -/
def moreOf (cc : CClass) : Atom := ⟨cc, 1, none⟩

/-- `cls?`. -/
def opt (cc : CClass) : Atom := ⟨cc, 0, some 1⟩

/-- `cls{n}`. -/
def exactly (cc : CClass) (n : Nat) : Atom := ⟨cc, n, some n⟩

/-- `cls{a,b}`. -/
def between (cc : CClass) (a b : Nat) : Atom := ⟨cc, a, some b⟩

/-- `cls{n,}`. -/
def atLeast (cc : CClass) (n : Nat) : Atom := ⟨cc, n, none⟩

/-- `\d` = `[0-9]`. -/
def digitCls : CClass := ⟨[('0', '9')]⟩

/-- `\s`. -/
def spaceCls : CClass :=
  ⟨[(' ', ' '), ('\t', '\t'), ('\n', '\n'), ('\x0d', '\x0d'), ('\x0b', '\x0b'), ('\x0c', '\x0c')]⟩

/-- `[\s\-\.]`. -/
def sepDotCls : CClass := ⟨spaceCls.ranges ++ [('-', '-'), ('.', '.')]⟩

/-- `[\s\-]`. -/
def sepCls : CClass := ⟨spaceCls.ranges ++ [('-', '-')]⟩

/-- `[0-9\+\-\(\)\s]`. -/
def phoneBodyCls : CClass :=
  ⟨[('0', '9'), ('+', '+'), ('-', '-'), ('(', '('), (')', ')')] ++ spaceCls.ranges⟩

/-- `[0-9\s\-\(\)]`. -/
def genPhoneCls : CClass :=
  ⟨[('0', '9')] ++ spaceCls.ranges ++ [('-', '-'), ('(', '('), (')', ')')]⟩

/-- `[:\s]`. -/
def colonSpaceCls : CClass := ⟨[(':', ':')] ++ spaceCls.ranges⟩

/-- `[а-я]`. -/
def cyrLowerCls : CClass := ⟨[('а', 'я')]⟩

/-- `[А-Яа-я\s]`. -/
def cyrSpaceCls : CClass := ⟨[('А', 'Я'), ('а', 'я')] ++ spaceCls.ranges⟩

/-- `[A-Za-z\s]`. -/
def latinSpaceCls : CClass := ⟨[('A', 'Z'), ('a', 'z')] ++ spaceCls.ranges⟩

/-- `[a-zA-Z0-9._%+-]`. -/
def emailLocalCls : CClass :=
  ⟨[('a', 'z'), ('A', 'Z'), ('0', '9'), ('.', '.'), ('_', '_'), ('%', '%'), ('+', '+'), ('-', '-')]⟩

/-- `[a-zA-Z0-9.-]`. -/
def emailDomainCls : CClass :=
  ⟨[('a', 'z'), ('A', 'Z'), ('0', '9'), ('.', '.'), ('-', '-')]⟩

/-- `[a-zA-Z]`. -/
def alphaCls : CClass := ⟨[('a', 'z'), ('A', 'Z')]⟩

/-- The 16 phone patterns of `SupplierSearchService._extract_phone_numbers`
(`app/services/supplier_search.py`, lines 64-92), in source order. -/
def supplier_phone_patterns : List (List Atom) :=
  [ [lit '(', exactly digitCls 3, lit ')', star spaceCls, exactly digitCls 3, star sepDotCls, exactly digitCls 4]
  , [exactly digitCls 3, star sepDotCls, exactly digitCls 3, star sepDotCls, exactly digitCls 4]
  , [lit '(', exactly digitCls 3, lit ')', star spaceCls, exactly digitCls 3, star spaceCls, exactly digitCls 4]
  , [lit '+', between digitCls 1 3, star sepDotCls, between digitCls 1 4, star sepDotCls, between digitCls 1 4, star sepDotCls, between digitCls 1 4]
  , litStr "+44" ++ [star sepDotCls, between digitCls 1 4, star sepDotCls, between digitCls 1 4, star sepDotCls, between digitCls 1 4]
  , [lit '0', between digitCls 1 4, star sepDotCls, between digitCls 1 4, star sepDotCls, between digitCls 1 4]
  , litStr "+3" ++ [exactly digitCls 1, star sepDotCls, between digitCls 1 4, star sepDotCls, between digitCls 1 4, star sepDotCls, between digitCls 1 4]
  , [lit '1', star sepDotCls] ++ litStr "800" ++ [star sepDotCls, exactly digitCls 3, star sepDotCls, exactly digitCls 4]
  , litStr "800" ++ [star sepDotCls, exactly digitCls 3, star sepDotCls, exactly digitCls 4]
  , [lit '1', star sepDotCls] ++ litStr "888" ++ [star sepDotCls, exactly digitCls 3, star sepDotCls, exactly digitCls 4]
  , litStr "888" ++ [star sepDotCls, exactly digitCls 3, star sepDotCls, exactly digitCls 4]
  , [lit '1', star sepDotCls] ++ litStr "877" ++ [star sepDotCls, exactly digitCls 3, star sepDotCls, exactly digitCls 4]
  , litStr "877" ++ [star sepDotCls, exactly digitCls 3, star sepDotCls, exactly digitCls 4]
  , [lit '1', star sepDotCls] ++ litStr "866" ++ [star sepDotCls, exactly digitCls 3, star sepDotCls, exactly digitCls 4]
  , litStr "866" ++ [star sepDotCls, exactly digitCls 3, star sepDotCls, exactly digitCls 4]
  , [exactly digitCls 10]
  ]

/-- Number of digit characters of a string (`len(re.findall(r'\d', s))`). -/
def digitCount (s : String) : Nat := s.data.countP (fun c => c.isDigit)

/-- `re.sub(r'\s', '', s)`. -/
def strip_ws (s : String) : String := String.mk (s.data.filter (fun c => !pyIsSpace c))

/-- `re.sub(r'[^\d\+]', '', s)`. -/
def keep_digit_plus (s : String) : String :=
  String.mk (s.data.filter (fun c => c.isDigit || c = '+'))

/-- The cleaning applied to each raw match in
`SupplierSearchService._extract_phone_numbers` (lines 98-100): strip all
whitespace, then drop every character that is not a digit or `+`. -/
def clean_match (m : String) : String := keep_digit_plus (strip_ws m)

/-- One iteration of the accumulation loop of
`SupplierSearchService._extract_phone_numbers` (lines 96-104): a cleaned
match is appended only if it has at least 10 digits and is not yet present. -/
def phone_step (acc : List String) (m : String) : List String :=
  let cleaned := clean_match m
  if 10 ≤ digitCount cleaned ∧ cleaned ∉ acc then acc ++ [cleaned] else acc

/-- `SupplierSearchService._extract_phone_numbers`
(`app/services/supplier_search.py`, lines 51-106): run the 16 patterns in
order over the content, clean and gate each match, and finally apply
`list(set(...))`, modelled as `List.dedup` (the accumulated list is already
duplicate-free, so this is the identity up to the arbitrary set order). -/
def extract_phone_numbers (webpage_content : String) : List String :=
  (supplier_phone_patterns.foldl
    (fun acc pat => (findall false pat webpage_content).foldl phone_step acc) []).dedup

/-- Python `str.strip()`: drop leading and trailing whitespace. -/
def pyStrip (s : String) : String :=
  String.mk (((s.data.dropWhile pyIsSpace).reverse.dropWhile pyIsSpace).reverse)

/-- Helper for `re.sub(r'\s+', ' ', s)`: replace each maximal whitespace run
by a single space (the flag records whether the previous character was
whitespace). -/
def collapseRunsAux : Bool → List Char → List Char
  | _, [] => []
  | prev, c :: rest =>
    if pyIsSpace c then
      if prev then collapseRunsAux true rest else ' ' :: collapseRunsAux true rest
    else c :: collapseRunsAux false rest

/-- `re.sub(r'\s+', ' ', s)`. -/
def collapse_ws_runs (s : String) : String := String.mk (collapseRunsAux false s.data)

/-- The per-match cleaning of `SearchOrchestrator._extract_contact_info`
(line 423): `re.sub(r'\s+', ' ', phone.strip())`. -/
def clean_phone (p : String) : String := collapse_ws_runs (pyStrip p)

/-- Singleton character class. -/
def chCls (c : Char) : CClass := ⟨[(c, c)]⟩

/-- The 5 phone patterns of `SearchOrchestrator._extract_contact_info`
(`app/services/search_orchestrator.py`, lines 410-416), in source order. -/
def contact_phone_patterns : List (List Atom) :=
  [ [lit '+', lit '7', opt spaceCls, opt (chCls '('), exactly digitCls 3, opt (chCls ')'), opt spaceCls, exactly digitCls 3, opt sepCls, exactly digitCls 2, opt sepCls, exactly digitCls 2]
  , [lit '8', opt spaceCls, opt (chCls '('), exactly digitCls 3, opt (chCls ')'), opt spaceCls, exactly digitCls 3, opt sepCls, exactly digitCls 2, opt sepCls, exactly digitCls 2]
  , [lit '+', between digitCls 1 3, opt spaceCls, between digitCls 3 4, opt spaceCls, between digitCls 3 4, opt spaceCls, between digitCls 3 4]
  , [exactly digitCls 3, opt sepCls, exactly digitCls 3, opt sepCls, exactly digitCls 4]
  , [opt (chCls '+'), atLeast genPhoneCls 10]
  ]

/-- The 3 address patterns of `SearchOrchestrator._extract_contact_info`
(lines 435-439), in source order. -/
def address_patterns : List (List Atom) :=
  [ [lit 'г', lit '.', star spaceCls, moreOf cyrSpaceCls, lit ',', star spaceCls, moreOf cyrSpaceCls]
  , [moreOf cyrSpaceCls, lit ',', star spaceCls, moreOf digitCls]
  , [moreOf latinSpaceCls, lit ',', star spaceCls, moreOf latinSpaceCls, lit ',', star spaceCls, moreOf digitCls]
  ]

/-- One iteration of the phone accumulation loop of
`SearchOrchestrator._extract_contact_info` (lines 421-427): a cleaned match is
appended only if it has at least 10 digits and is not yet present. -/
def contact_phone_step (acc : List String) (m : String) : List String :=
  let cp := clean_phone m
  if 10 ≤ digitCount cp ∧ cp ∉ acc then acc ++ [cp] else acc

/-- The `all_phones` list built by `SearchOrchestrator._extract_contact_info`
(lines 418-427). -/
def contact_all_phones (snippet : String) : List String :=
  contact_phone_patterns.foldl
    (fun acc pat => (findall false pat snippet).foldl contact_phone_step acc) []

/-- The address loop of `SearchOrchestrator._extract_contact_info`
(lines 441-446): the first pattern with a match wins, and its first match is
stripped. -/
def first_address : List (List Atom) → String → Option String
  | [], _ => none
  | pat :: rest, snippet =>
    match (findall false pat snippet).head? with
    | some a => some (pyStrip a)
    | none => first_address rest snippet

/-- `SearchOrchestrator._extract_contact_info`
(`app/services/search_orchestrator.py`, lines 400-448). -/
def extract_contact_info (snippet : String) : String :=
  let all_phones := contact_all_phones snippet
  let parts :=
    if all_phones.isEmpty then ([] : List String)
    else [String.intercalate "; " (all_phones.map (fun p => "Тел: " ++ p))]
  let parts := parts ++ (match first_address address_patterns snippet with
    | some a => ["Адрес: " ++ a]
    | none => [])
  if parts.isEmpty then "" else String.intercalate "; " parts

/-- The 10 phone patterns of `SearchOrchestrator._has_phone_number`
(lines 471-482), in source order; they are matched with `re.IGNORECASE`. -/
def has_phone_patterns : List (List Atom) :=
  [ [opt (chCls '+'), atLeast genPhoneCls 10]
  , [lit '+', lit '7', opt spaceCls, opt (chCls '('), exactly digitCls 3, opt (chCls ')'), opt spaceCls, exactly digitCls 3, opt sepCls, exactly digitCls 2, opt sepCls, exactly digitCls 2]
  , [lit '8', opt spaceCls, opt (chCls '('), exactly digitCls 3, opt (chCls ')'), opt spaceCls, exactly digitCls 3, opt sepCls, exactly digitCls 2, opt sepCls, exactly digitCls 2]
  , [lit '+', between digitCls 1 3, opt spaceCls, between digitCls 3 4, opt spaceCls, between digitCls 3 4, opt spaceCls, between digitCls 3 4]
  , [exactly digitCls 3, opt sepCls, exactly digitCls 3, opt sepCls, exactly digitCls 4]
  , litStr "тел" ++ [star cyrLowerCls, star colonSpaceCls, moreOf phoneBodyCls]
  , litStr "phone" ++ [star colonSpaceCls, moreOf phoneBodyCls]
  , litStr "телефон" ++ [star colonSpaceCls, moreOf phoneBodyCls]
  , litStr "call" ++ [star colonSpaceCls, moreOf phoneBodyCls]
  , litStr "contact" ++ [star colonSpaceCls, moreOf phoneBodyCls]
  ]

/-- The scan of one string by `SearchOrchestrator._has_phone_number`: some
pattern has a case-insensitive match whose digit-only form has at least 7
digits (lines 485-500, identical loops over `contact_info` and `snippet`). -/
def has_phone_in (s : String) : Bool :=
  has_phone_patterns.any (fun pat => (findall true pat s).any (fun m => 7 ≤ digitCount m))

/-- `SearchOrchestrator._has_phone_number`
(`app/services/search_orchestrator.py`, lines 464-502): the lenient, 7-digit
phone check over the contact info and then the snippet. -/
def has_phone_number (contact_info snippet : String) : Bool :=
  has_phone_in contact_info || has_phone_in snippet

/-- The email pattern `[a-zA-Z0-9._%+-]+@[a-zA-Z0-9.-]+\.[a-zA-Z]{2,}` of
`SearchOrchestrator._extract_email_addresses` (line 457). -/
def email_pat : List Atom :=
  [moreOf emailLocalCls, lit '@', moreOf emailDomainCls, lit '.', atLeast alphaCls 2]

/-- `SearchOrchestrator._extract_email_addresses` (lines 450-462);
`list(set(emails))` is modelled as `List.dedup`. -/
def extract_email_addresses (snippet : String) : List String :=
  (findall false email_pat snippet).dedup

/-- Python `str.split()` without arguments: split on whitespace runs,
dropping empty pieces. -/
def pySplit (s : String) : List String :=
  (s.split (fun c => pyIsSpace c)).filter (fun w => w ≠ "")

/-- `SearchOrchestrator._extract_company_name` (lines 390-398). -/
def extract_company_name (title snippet : String) : String :=
  let words := pySplit title
  if 2 ≤ words.length then String.intercalate " " (words.take 3) else title

/-- `SearchResult` of `app/models/__init__.py` (lines 23-30); the `timestamp`
field is omitted (wall-clock metadata, unused by the pipeline logic). -/
structure SearchResult where
  title : String
  link : String
  snippet : String
  position : Nat
  source : Option String
deriving DecidableEq

/-- `SupplierResult` of `app/models/__init__.py` (lines 100-112) as
constructed by `SearchOrchestrator._extract_supplier_info`; the constant
`rating=0.0` float field is omitted, and `email_addresses` records the value
passed to the constructor (pydantic silently drops this undeclared field,
which affects no claim). -/
structure SupplierResult where
  name : String
  website : Option String
  contact_info : Option String
  email_addresses : Option (List String)
  supplier_type : String
  location : String
  verified : Bool
  source : Option String
deriving DecidableEq

/-- The `location_params` dictionary as consumed by
`SearchOrchestrator._extract_supplier_info`: only the `country_code` key is
read, with default `"kz"` (line 384). -/
structure LocationParams where
  country_code : Option String
deriving DecidableEq

/-- `SearchOrchestrator._extract_supplier_info`
(`app/services/search_orchestrator.py`, lines 352-388): emits a supplier
record only when the lenient phone check or the email extraction succeeds on
the snippet. `product_name` is accepted and unused, as in the source. -/
def extract_supplier_info (search_result : SearchResult) (product_name : String)
    (location_params : LocationParams) : Option SupplierResult :=
  let snippet := search_result.snippet
  let contact_info := extract_contact_info snippet
  let email_addresses := extract_email_addresses snippet
  let has_phone := has_phone_number contact_info snippet
  let has_email := decide (0 < email_addresses.length)
  if !has_phone && !has_email then none
  else some
    { name := extract_company_name search_result.title snippet
      website := some search_result.link
      contact_info := some contact_info
      email_addresses := if email_addresses.isEmpty then none else some email_addresses
      supplier_type := "supplier"
      location := location_params.country_code.getD "kz"
      verified := false
      source := search_result.source }

/-- The deduplication key of `SearchOrchestrator._analyze_supplier_results`
(line 346): `supplier.website or supplier.name` under Python truthiness. -/
def supplier_key (s : SupplierResult) : String :=
  match s.website with
  | some w => if w = "" then s.name else w
  | none => s.name

/-- The deduplication loop of `SearchOrchestrator._analyze_supplier_results`
(lines 344-350): an insertion-ordered dictionary keyed by `supplier_key`,
keeping the first record seen for each key; `seen` carries the keys already
present. -/
def dedup_suppliers : List String → List SupplierResult → List SupplierResult
  | _, [] => []
  | seen, s :: rest =>
    if supplier_key s ∈ seen then dedup_suppliers seen rest
    else s :: dedup_suppliers (supplier_key s :: seen) rest

/-- `SearchResponse` of `app/models/__init__.py` (lines 32-38); the
`search_time` float field is omitted (timing metadata). -/
structure SearchResponse where
  query : String
  results : List SearchResult
  total_results : Nat
  engine : String
deriving DecidableEq

/-- `SearchOrchestrator._analyze_supplier_results`
(`app/services/search_orchestrator.py`, lines 320-350): extract a candidate
from every hit of every response in order, keep the emitted ones, then
deduplicate by `supplier_key`. -/
def analyze_supplier_results (search_results : List SearchResponse)
    (product_name : String) (location_params : LocationParams) : List SupplierResult :=
  let supplier_results := search_results.foldl (fun acc resp =>
    resp.results.foldl (fun acc r =>
      match extract_supplier_info r product_name location_params with
      | some info => acc ++ [info]
      | none => acc) acc) []
  dedup_suppliers [] supplier_results

/-- `SupplierSearchService._scrape_webpage_content`
(`app/services/supplier_search.py`, lines 16-49). The HTTP GET, the
BeautifulSoup text extraction and the whitespace cleanup (lines 27-42) are an
external effect, abstracted as `fetched`: `none` is any exception on that
path (caught at line 47), `some text` is the cleaned page text. The function
itself never fails: it truncates to the first 5000 characters on success
(line 45) and returns the empty string on failure (line 49). -/
def scrape_webpage_content (fetched : Option String) : String :=
  match fetched with
  | none => ""
  | some text => String.mk (text.data.take 5000)

/-- The analysis dictionary produced by
`SupplierSearchService._check_webpage_requirements`; the auxiliary boolean
keys of the classifier JSON are not consumed anywhere and are omitted. -/
structure PageAnalysis where
  meets_requirements : Bool
  reason : String
  phone_numbers : List String
deriving DecidableEq

/-- `SupplierSearchService._check_webpage_requirements`
(`app/services/supplier_search.py`, lines 243-327). The language-model
classifier call is an external effect, abstracted as `classify`, mapping the
prompt content (the scraped text, re-truncated to 5000 characters at
line 269) to a parsed analysis or an error (network failure or malformed
JSON, caught at line 321). On empty scraped content the fixed rejection
record is returned without consulting the classifier. -/
def check_webpage_requirements (classify : String → Except String PageAnalysis)
    (fetched : Option String) : PageAnalysis :=
  let webpage_content := scrape_webpage_content fetched
  if webpage_content = "" then
    ⟨false, "Could not access webpage content", []⟩
  else
    match classify (String.mk (webpage_content.data.take 5000)) with
    | Except.ok analysis => { analysis with phone_numbers := [] }
    | Except.error e => ⟨false, "Error analyzing webpage: " ++ e, []⟩

/-- One raw entry of `search_results["organic_results"]` as consumed by
`SupplierSearchService._refine_search_results` (lines 344-353): either a
dictionary (with the optional keys that the `get` chains read) or a plain
string, which is skipped. -/
inductive OrganicResult where
  | dict (title name link url href : Option String)
  | str (s : String)
deriving DecidableEq

/-- An entry of `urls_to_check` (line 349). -/
structure UrlItem where
  title : String
  url : String
deriving DecidableEq

/-- The per-entry extraction of `urls_to_check`
(`_refine_search_results`, lines 344-353): `title` falls back through
`title`/`name`/`"Unknown"`, the url through `link`/`url`/`href`/`""`, and
entries without a url are dropped. -/
def organic_to_item : OrganicResult → Option UrlItem
  | OrganicResult.dict t n l u h =>
    let title := t.getD (n.getD "Unknown")
    let url := l.getD (u.getD (h.getD ""))
    if url = "" then none else some ⟨title, url⟩
  | OrganicResult.str _ => none

/-- A qualified business record built by `_refine_search_results`
(lines 368-372). -/
structure Business where
  title : String
  url : String
  analysis : PageAnalysis
deriving DecidableEq

/-- The first pass of `SupplierSearchService._refine_search_results`
(lines 361-378): check each item and keep those whose analysis meets the
requirements. `fetch` abstracts the per-url page retrieval effect fed to
`check_webpage_requirements`. -/
def refine_first_pass (classify : String → Except String PageAnalysis)
    (fetch : String → Option String) (items : List UrlItem) : List Business :=
  items.foldl (fun acc item =>
    let analysis := check_webpage_requirements classify (fetch item.url)
    if analysis.meets_requirements then acc ++ [⟨item.title, item.url, analysis⟩] else acc) []

/-- `SupplierSearchService._refine_search_results`
(`app/services/supplier_search.py`, lines 329-386): build `urls_to_check`,
qualify at most the first 10 entries, then (second pass, lines 380-384) run
the exhaustive multi-page phone extraction — an external effect abstracted
as `extract_from_website` — on each qualified business, storing its result
in the analysis. -/
def refine_search_results (classify : String → Except String PageAnalysis)
    (fetch : String → Option String) (extract_from_website : String → List String)
    (organic_results : List OrganicResult) : List Business :=
  let urls_to_check := organic_results.filterMap organic_to_item
  if urls_to_check.isEmpty then []
  else
    (refine_first_pass classify fetch (urls_to_check.take 10)).map
      (fun b => { b with analysis := { b.analysis with phone_numbers := extract_from_website b.url } })

/-- `SerpService._parse_search_results` for web results
(`app/services/serp_service.py`, lines 164-174): at most `max_results`
organic results are kept, in order. -/
def parse_search_results (max_results : Nat) (organic : List SearchResult) : List SearchResult :=
  organic.take max_results

/-- `SerpService.search` (`app/services/serp_service.py`, lines 19-83). The
provider is an external effect, abstracted as a sequence of call outcomes
indexed by a call counter `k` (the `k`-th provider call made while serving
this query); the pair returned is (response, next call index). On a provider
error the empty response is returned (lines 75-83) — the exception never
propagates. -/
def serp_search (provider : Nat → Except String (List SearchResult))
    (max_results : Nat) (q : String) (k : Nat) : SearchResponse × Nat :=
  match provider k with
  | Except.ok data =>
    let results := parse_search_results max_results data
    ({ query := q, results := results, total_results := results.length, engine := "google" }, k + 1)
  | Except.error _ =>
    ({ query := q, results := [], total_results := 0, engine := "google" }, k + 1)

/-- `SerpService.search_with_fallback`
(`app/services/serp_service.py`, lines 206-220): one search call, then — only
if it returned no results — exactly one more call with relaxed parameters. -/
def search_with_fallback (provider : Nat → Except String (List SearchResult))
    (max_results : Nat) (q : String) : SearchResponse × Nat :=
  let first := serp_search provider max_results q 0
  if first.1.results.isEmpty then serp_search provider max_results q first.2 else first

/-- The CIS membership list of `LocationService.is_cis_country`
(`app/services/location_service.py`, line 243). -/
def cis_countries : List String :=
  ["kz", "ru", "ua", "by", "uz", "kg", "tj", "tm", "az", "am", "ge", "md"]

/-- `LocationService.is_cis_country` (lines 239-244). -/
def is_cis_country (country_code : String) : Bool := country_code ∈ cis_countries

/-- The `local_sources_map` dictionary of `LocationService.get_local_sources`
(lines 250-263). -/
def local_sources_map : List (String × List String) :=
  [ ("kz", ["kz.all.biz", "kz.exportpages.com", "kz.tradekey.com"])
  , ("ru", ["ru.all.biz", "ru.exportpages.com", "ru.tradekey.com"])
  , ("ua", ["ua.all.biz", "ua.exportpages.com", "ua.tradekey.com"])
  , ("by", ["by.all.biz", "by.exportpages.com", "by.tradekey.com"])
  , ("uz", ["uz.all.biz", "uz.exportpages.com", "uz.tradekey.com"])
  , ("kg", ["kg.all.biz", "kg.exportpages.com", "kg.tradekey.com"])
  , ("tj", ["tj.all.biz", "tj.exportpages.com", "tj.tradekey.com"])
  , ("tm", ["tm.all.biz", "tm.exportpages.com", "tm.tradekey.com"])
  , ("az", ["az.all.biz", "az.exportpages.com", "az.tradekey.com"])
  , ("am", ["am.all.biz", "am.exportpages.com", "am.tradekey.com"])
  , ("ge", ["ge.all.biz", "ge.exportpages.com", "ge.tradekey.com"])
  , ("md", ["md.all.biz", "md.exportpages.com", "md.tradekey.com"])
  ]

/-- `LocationService.get_local_sources`
(`app/services/location_service.py`, lines 246-265):
`local_sources_map.get(country_code, [])`. -/
def get_local_sources (country_code : String) : List String :=
  ((local_sources_map.find? (fun e => e.1 == country_code)).map (fun e => e.2)).getD []

/-- `LocationService.get_trusted_sources_by_region`
(`app/services/location_service.py`, lines 267-280). -/
def get_trusted_sources_by_region (country_code : String) : List String :=
  if is_cis_country country_code then
    ["alibaba.com", "globalsources.com", "made-in-china.com", "indiamart.com"]
  else if country_code ∈ ["cn", "jp", "kr"] then
    ["alibaba.com", "globalsources.com", "made-in-china.com", "tradekey.com"]
  else if country_code ∈ ["us", "ca"] then
    ["alibaba.com", "globalsources.com", "made-in-china.com", "exportersindia.com"]
  else if country_code ∈ ["de", "fr", "it", "es", "gb"] then
    ["alibaba.com", "globalsources.com", "made-in-china.com", "tradekey.com"]
  else
    ["alibaba.com", "globalsources.com", "made-in-china.com"]

/-- The names of the methods that the `LocationService` class of
`app/services/location_service.py` defines (lines 8-280), besides
`__init__`. Python attribute lookup on an instance succeeds exactly for
these. -/
def location_service_methods : List String :=
  [ "detect_country_and_language", "get_search_languages", "get_search_parameters"
  , "get_multilingual_search_params", "is_cis_country", "get_local_sources"
  , "get_trusted_sources_by_region" ]

/-- A Python runtime exception, as far as the pipeline claims need one. -/
inductive PyError where
  | attributeError (obj attrName : String)
deriving DecidableEq

/-- Python attribute resolution on a `LocationService` instance: an
`AttributeError` is raised for any name the class does not define. -/
def location_service_getattr (name : String) : Except PyError Unit :=
  if name ∈ location_service_methods then Except.ok ()
  else Except.error (PyError.attributeError "LocationService" name)

/-- `b = a && leadsWith`-style list matching: does `needle` occur at the head
of the second list? -/
def leadsWith : List Char → List Char → Bool
  | [], _ => true
  | _ :: _, [] => false
  | a :: xs, b :: ys => a = b && leadsWith xs ys

/-- Does `needle` occur anywhere in the list? -/
def hasSubList (needle : List Char) : List Char → Bool
  | [] => leadsWith needle []
  | c :: rest => leadsWith needle (c :: rest) || hasSubList needle rest

/-- Python substring test `needle in hay`. -/
def strHasSub (hay needle : String) : Bool := hasSubList needle.data hay.data

/-- The query-building body of `SearchOrchestrator._generate_supplier_queries`
(`app/services/search_orchestrator.py`, lines 180-245), with the
`full_location` value (whose computation crashes, see
`generate_supplier_queries`) taken as a parameter. `amount` and
`date_and_time` use `""` for Python-falsy values (`None` or the empty
string), matching the `if amount:` / `if date_and_time:` truthiness tests. -/
def build_supplier_queries (search_query amount full_location strategy date_and_time : String) : List String :=
  let base_query := search_query ++ " supplier"
  let queries :=
    if strategy = "direct" then
      [base_query ++ " in " ++ full_location,
       search_query ++ " wholesale in " ++ full_location,
       search_query ++ " suppliers in " ++ full_location]
      ++ (if date_and_time ≠ "" then ["buy " ++ search_query ++ " in " ++ full_location ++ " deliver " ++ date_and_time] else [])
    else if strategy = "catalog" then
      [search_query ++ " supplier catalog in " ++ full_location,
       search_query ++ " price list suppliers in " ++ full_location,
       search_query ++ " wholesale suppliers in " ++ full_location]
      ++ (if date_and_time ≠ "" then ["buy " ++ search_query ++ " in " ++ full_location ++ " deliver " ++ date_and_time ++ " catalog"] else [])
    else if strategy = "trusted" then
      [search_query ++ " verified suppliers in " ++ full_location,
       search_query ++ " reliable suppliers in " ++ full_location,
       search_query ++ " official suppliers in " ++ full_location]
      ++ (if date_and_time ≠ "" then ["buy " ++ search_query ++ " in " ++ full_location ++ " deliver " ++ date_and_time ++ " trusted supplier"] else [])
    else if strategy = "local" then
      [search_query ++ " local suppliers in " ++ full_location,
       search_query ++ " regional suppliers in " ++ full_location,
       search_query ++ " nearby suppliers in " ++ full_location]
      ++ (if date_and_time ≠ "" then ["buy " ++ search_query ++ " in " ++ full_location ++ " deliver " ++ date_and_time ++ " local"] else [])
    else
      [base_query]
      ++ (if date_and_time ≠ "" then ["buy " ++ search_query ++ " in " ++ full_location ++ " deliver " ++ date_and_time] else [])
  if amount ≠ "" then
    let enhanced := queries.foldl (fun acc q =>
      (acc ++ [q]) ++ (if strHasSub q "buy" ∧ date_and_time ≠ "" then [q ++ " " ++ amount] else [])) []
    queries.foldl (fun acc q =>
      if strHasSub q "buy" then acc else acc ++ [q ++ " " ++ amount]) enhanced
  else queries

/-- Modelled from the spec: `LocationService.get_full_location_name` is
invoked by `SearchOrchestrator._generate_supplier_queries` (line 178) but is
defined nowhere in the repository. §4.2 of the spec says queries are built
from "the resolved location's human-readable form"; it is modelled as the
location string itself. Only the (unreachable) success branch of
`generate_supplier_queries` consumes it. -/
def get_full_location_name (location : String) : String := location

/-- `SearchOrchestrator._generate_supplier_queries`
(`app/services/search_orchestrator.py`, lines 165-245): the first statement
of the body resolves `location_service.get_full_location_name`, so the whole
call is governed by that attribute lookup. -/
def generate_supplier_queries (search_query amount location strategy date_and_time : String) :
    Except PyError (List String) :=
  match location_service_getattr "get_full_location_name" with
  | Except.error e => Except.error e
  | Except.ok _ =>
    Except.ok (build_supplier_queries search_query amount (get_full_location_name location) strategy date_and_time)

/-! ### Helper lemmas -/

theorem phone_step_digits (acc : List String) (m : String)
    (h : ∀ p ∈ acc, 10 ≤ digitCount p) : ∀ p ∈ phone_step acc m, 10 ≤ digitCount p := by
  intro p hp
  simp only [phone_step] at hp
  by_cases hc : 10 ≤ digitCount (clean_match m) ∧ clean_match m ∉ acc
  · rw [if_pos hc] at hp
    rcases List.mem_append.mp hp with h1 | h2
    · exact h p h1
    · rw [List.mem_singleton.mp h2]
      exact hc.1
  · rw [if_neg hc] at hp
    exact h p hp

theorem foldl_phone_step_digits (l acc : List String)
    (h : ∀ p ∈ acc, 10 ≤ digitCount p) : ∀ p ∈ l.foldl phone_step acc, 10 ≤ digitCount p := by
  induction l generalizing acc with
  | nil => exact h
  | cons x xs ih =>
    simp only [List.foldl_cons]
    exact ih _ (phone_step_digits acc x h)

theorem patterns_fold_digits (pats : List (List Atom)) (text : String) (acc : List String)
    (h : ∀ p ∈ acc, 10 ≤ digitCount p) :
    ∀ p ∈ pats.foldl (fun acc pat => (findall false pat text).foldl phone_step acc) acc,
      10 ≤ digitCount p := by
  induction pats generalizing acc with
  | nil => exact h
  | cons x xs ih =>
    simp only [List.foldl_cons]
    exact ih _ (foldl_phone_step_digits _ _ h)

theorem extract_phone_numbers_digits (text : String) :
    ∀ p ∈ extract_phone_numbers text, 10 ≤ digitCount p := by
  intro p hp
  unfold extract_phone_numbers at hp
  rw [List.mem_dedup] at hp
  exact patterns_fold_digits supplier_phone_patterns text [] (by simp) p hp

theorem dedup_suppliers_nodup_keys (l : List SupplierResult) (seen : List String) :
    ((dedup_suppliers seen l).map supplier_key).Nodup
    ∧ ∀ s ∈ dedup_suppliers seen l, supplier_key s ∉ seen := by
  induction l generalizing seen with
  | nil => simp [dedup_suppliers]
  | cons x xs ih =>
    by_cases h : supplier_key x ∈ seen
    · simp only [dedup_suppliers, if_pos h]
      exact ⟨(ih seen).1, fun s hs => (ih seen).2 s hs⟩
    · simp only [dedup_suppliers, if_neg h]
      obtain ⟨ihn, ihs⟩ := ih (supplier_key x :: seen)
      refine ⟨?_, ?_⟩
      · simp only [List.map_cons, List.nodup_cons]
        refine ⟨?_, ihn⟩
        intro hmem
        rcases List.mem_map.mp hmem with ⟨s, hs, hks⟩
        have h2 := ihs s hs
        rw [hks] at h2
        exact h2 (List.mem_cons_self _ _)
      · intro s hs
        rcases List.mem_cons.mp hs with rfl | hs2
        · exact h
        · intro hmem
          exact ihs s hs2 (List.mem_cons_of_mem _ hmem)

theorem dedup_suppliers_first_seen (l : List SupplierResult) (seen : List String) (k : String)
    (hk : k ∉ seen) :
    (dedup_suppliers seen l).find? (fun s => supplier_key s == k) =
      l.find? (fun s => supplier_key s == k) := by
  induction l generalizing seen with
  | nil => simp [dedup_suppliers]
  | cons x xs ih =>
    by_cases h : supplier_key x ∈ seen
    · have hne : (supplier_key x == k) = false := by
        rw [beq_eq_false_iff_ne]
        intro he
        rw [he] at h
        exact hk h
      simp only [dedup_suppliers, if_pos h]
      rw [ih seen hk, List.find?_cons_of_neg _ (by simp [hne])]
    · simp only [dedup_suppliers, if_neg h]
      by_cases he : supplier_key x = k
      · rw [List.find?_cons_of_pos _ (by simp [he]), List.find?_cons_of_pos _ (by simp [he])]
      · rw [List.find?_cons_of_neg _ (by simp [he]), List.find?_cons_of_neg _ (by simp [he])]
        refine ih (supplier_key x :: seen) ?_
        intro hmem
        rcases List.mem_cons.mp hmem with h1 | h2
        · exact he h1.symm
        · exact hk h2

theorem check_empty_content (classify : String → Except String PageAnalysis)
    (fetched : Option String) (h : scrape_webpage_content fetched = "") :
    check_webpage_requirements classify fetched =
      ⟨false, "Could not access webpage content", []⟩ := by
  simp [check_webpage_requirements, h]

theorem refine_first_pass_aux (classify : String → Except String PageAnalysis)
    (fetch : String → Option String) (items : List UrlItem) (acc : List Business) :
    items.foldl (fun acc item =>
      let analysis := check_webpage_requirements classify (fetch item.url)
      if analysis.meets_requirements then acc ++ [⟨item.title, item.url, analysis⟩] else acc) acc
    = acc ++ items.filterMap (fun item =>
        let analysis := check_webpage_requirements classify (fetch item.url)
        if analysis.meets_requirements then some ⟨item.title, item.url, analysis⟩ else none) := by
  induction items generalizing acc with
  | nil => simp
  | cons x xs ih =>
    simp only [List.foldl_cons, List.filterMap_cons]
    by_cases h : (check_webpage_requirements classify (fetch x.url)).meets_requirements
    · simp only [if_pos h]
      rw [ih]
      simp [List.append_assoc]
    · simp only [if_neg h]
      rw [ih]

theorem refine_first_pass_spec (classify : String → Except String PageAnalysis)
    (fetch : String → Option String) (items : List UrlItem) :
    refine_first_pass classify fetch items =
      items.filterMap (fun item =>
        let analysis := check_webpage_requirements classify (fetch item.url)
        if analysis.meets_requirements then some ⟨item.title, item.url, analysis⟩ else none) := by
  unfold refine_first_pass
  rw [refine_first_pass_aux]
  simp

theorem refine_search_results_spec (classify : String → Except String PageAnalysis)
    (fetch : String → Option String) (extract_from_website : String → List String)
    (organic_results : List OrganicResult) :
    refine_search_results classify fetch extract_from_website organic_results =
      ((organic_results.filterMap organic_to_item).take 10).filterMap (fun item =>
        let analysis := check_webpage_requirements classify (fetch item.url)
        if analysis.meets_requirements then
          some ⟨item.title, item.url, { analysis with phone_numbers := extract_from_website item.url }⟩
        else none) := by
  unfold refine_search_results
  by_cases h : (organic_results.filterMap organic_to_item).isEmpty
  · rw [if_pos h]
    rw [List.isEmpty_iff] at h
    rw [h]
    rfl
  · rw [if_neg h, refine_first_pass_spec, List.map_filterMap]
    congr 1
    funext item
    by_cases hm : (check_webpage_requirements classify (fetch item.url)).meets_requirements
    · simp [hm]
    · simp [hm]

theorem mem_refine_meets (classify : String → Except String PageAnalysis)
    (fetch : String → Option String) (extract_from_website : String → List String)
    (organic_results : List OrganicResult) (b : Business)
    (hb : b ∈ refine_search_results classify fetch extract_from_website organic_results) :
    (check_webpage_requirements classify (fetch b.url)).meets_requirements = true
    ∧ b.analysis.phone_numbers = extract_from_website b.url := by
  rw [refine_search_results_spec] at hb
  rcases List.mem_filterMap.mp hb with ⟨item, _, hf⟩
  by_cases hm : (check_webpage_requirements classify (fetch item.url)).meets_requirements
  · simp only [if_pos hm] at hf
    obtain rfl := Option.some_injective _ hf
    exact ⟨hm, rfl⟩
  · simp only [if_neg hm] at hf
    exact absurd hf (by simp)

theorem serp_search_snd (provider : Nat → Except String (List SearchResult))
    (max_results : Nat) (q : String) (k : Nat) :
    (serp_search provider max_results q k).2 = k + 1 := by
  unfold serp_search
  cases provider k <;> rfl

theorem dedup_suppliers_nil (seen : List String) : dedup_suppliers seen [] = [] := rfl

theorem dedup_suppliers_cons (seen : List String) (s : SupplierResult) (rest : List SupplierResult) :
    dedup_suppliers seen (s :: rest) =
      if supplier_key s ∈ seen then dedup_suppliers seen rest
      else s :: dedup_suppliers (supplier_key s :: seen) rest := rfl

/-! ### Claim theorems -/

/-- C1: for every search hit processed in snippet mode, a supplier candidate
is emitted by `SearchOrchestrator._extract_supplier_info` if and only if the
hit's snippet yields a non-empty phone indication under the lenient
`_has_phone_number` check or at least one extracted email address; a hit
with neither contributes no candidate. -/
theorem supplier_candidate_iff_contact (search_result : SearchResult) (product_name : String)
    (location_params : LocationParams) :
    (extract_supplier_info search_result product_name location_params).isSome =
      (has_phone_number (extract_contact_info search_result.snippet) search_result.snippet
        || decide (0 < (extract_email_addresses search_result.snippet).length)) := by
  simp only [extract_supplier_info]
  cases h1 : has_phone_number (extract_contact_info search_result.snippet) search_result.snippet
  <;> cases h2 : decide (0 < (extract_email_addresses search_result.snippet).length)
  <;> simp [h1, h2]

/-- C2: the deduplication of `SearchOrchestrator._analyze_supplier_results`
yields a list with pairwise distinct (website-or-name) keys in which, for
every key, the survivor is the first-seen record in input order; in
particular, of two candidates carrying the same non-empty website (which is
then their key) and different names, exactly the first survives. -/
theorem dedup_unique_first_seen :
    (∀ l : List SupplierResult,
      ((dedup_suppliers [] l).map supplier_key).Nodup
      ∧ ∀ k, (dedup_suppliers [] l).find? (fun s => supplier_key s == k) =
          l.find? (fun s => supplier_key s == k))
    ∧ (∀ a b : SupplierResult, ∀ w : String, a.website = some w → b.website = some w →
        w ≠ "" → a.name ≠ b.name → dedup_suppliers [] [a, b] = [a]) := by
  constructor
  · intro l
    exact ⟨(dedup_suppliers_nodup_keys l []).1,
      fun k => dedup_suppliers_first_seen l [] k (by simp)⟩
  · intro a b w ha hb hw _
    have hka : supplier_key a = w := by simp [supplier_key, ha, hw]
    have hkb : supplier_key b = w := by simp [supplier_key, hb, hw]
    rw [dedup_suppliers_cons, if_neg (by simp), dedup_suppliers_cons,
      if_pos (by simp [hka, hkb]), dedup_suppliers_nil]

/-- C2 witness: two concrete candidates with the same non-empty website and
different names; only the first survives deduplication. -/
theorem dedup_unique_first_seen_witness :
    dedup_suppliers []
      [⟨"Acme", some "http://acme.example", none, none, "supplier", "kz", false, none⟩,
       ⟨"Beta", some "http://acme.example", none, none, "supplier", "kz", false, none⟩]
    = [⟨"Acme", some "http://acme.example", none, none, "supplier", "kz", false, none⟩] :=
  dedup_unique_first_seen.2
    ⟨"Acme", some "http://acme.example", none, none, "supplier", "kz", false, none⟩
    ⟨"Beta", some "http://acme.example", none, none, "supplier", "kz", false, none⟩
    "http://acme.example" rfl rfl (by decide) (by decide)

/-- C3: for every supplier-search request, the query-generation step of the
orchestrator raises `AttributeError`: its first statement resolves
`LocationService.get_full_location_name`, and the `LocationService` class
defines no such method. -/
theorem generate_queries_attribute_error (search_query amount location strategy date_and_time : String) :
    generate_supplier_queries search_query amount location strategy date_and_time =
      Except.error (PyError.attributeError "LocationService" "get_full_location_name") := by
  rfl

/-- C4: the page fetcher is total (it returns a plain string, never an
exception) and bounded: its result has at most 5000 characters, is empty on
any failure, and when the scraped text is empty the per-hit analysis is the
fixed rejection record with rationale "Could not access webpage content",
whatever the classifier would answer (it is not consulted); consequently a
hit whose page cannot be accessed never appears among the qualified
businesses. -/
theorem fetch_bounded_and_unreachable_rejected :
    (∀ fetched, (scrape_webpage_content fetched).length ≤ 5000)
    ∧ scrape_webpage_content none = ""
    ∧ (∀ (classify : String → Except String PageAnalysis) fetched,
        scrape_webpage_content fetched = "" →
        check_webpage_requirements classify fetched =
          ⟨false, "Could not access webpage content", []⟩)
    ∧ (∀ (classify : String → Except String PageAnalysis)
        (fetch : String → Option String) (extract_from_website : String → List String)
        (organic_results : List OrganicResult) (b : Business),
        b ∈ refine_search_results classify fetch extract_from_website organic_results →
        scrape_webpage_content (fetch b.url) ≠ "") := by
  refine ⟨?_, rfl, ?_, ?_⟩
  · intro fetched
    cases fetched with
    | none => simp [scrape_webpage_content]
    | some text =>
      show (String.mk (text.data.take 5000)).length ≤ 5000
      have h : (String.mk (text.data.take 5000)).length = (text.data.take 5000).length := rfl
      rw [h, List.length_take]
      exact min_le_left _ _
  · exact check_empty_content
  · intro classify fetch extract_from_website organic_results b hb hempty
    have hmeets := (mem_refine_meets classify fetch extract_from_website organic_results b hb).1
    rw [check_empty_content classify (fetch b.url) hempty] at hmeets
    exact Bool.false_ne_true hmeets

/-- C4 witness: a failed fetch is analyzed to the fixed rejection record even
under a classifier that accepts everything, and the empty text respects the
5000-character bound. -/
theorem fetch_bounded_and_unreachable_rejected_witness :
    check_webpage_requirements (fun _ => Except.ok ⟨true, "ok", []⟩) none =
      ⟨false, "Could not access webpage content", []⟩
    ∧ (scrape_webpage_content none).length ≤ 5000 :=
  ⟨fetch_bounded_and_unreachable_rejected.2.2.1 (fun _ => Except.ok ⟨true, "ok", []⟩) none rfl,
   fetch_bounded_and_unreachable_rejected.1 none⟩

/-- C5: every number in the strict-extraction output of
`SupplierSearchService._extract_phone_numbers` has at least 10 digits — in
particular the 9-digit string `123456789` never appears — while the lenient
`SearchOrchestrator._has_phone_number` check accepts a snippet whose only
match has exactly 7 digits and rejects one with 6: the two thresholds are
distinct. -/
theorem strict_extraction_ten_digits_lenient_seven :
    (∀ text p, p ∈ extract_phone_numbers text → 10 ≤ digitCount p)
    ∧ (∀ text, "123456789" ∉ extract_phone_numbers text)
    ∧ has_phone_number "" "phone: 1234567" = true
    ∧ has_phone_number "" "phone: 123456" = false := by
  refine ⟨fun text p hp => extract_phone_numbers_digits text p hp, ?_, by decide, by decide⟩
  intro text hmem
  have h10 := extract_phone_numbers_digits text _ hmem
  have h9 : digitCount "123456789" = 9 := by decide
  rw [h9] at h10
  exact absurd h10 (by decide)

/-- C5 witness: a concrete strict extraction containing a 10-digit number,
fed through the theorem. -/
theorem strict_extraction_ten_digits_lenient_seven_witness :
    "5551234567" ∈ extract_phone_numbers "5551234567" ∧ 10 ≤ digitCount "5551234567" :=
  ⟨by decide,
   strict_extraction_ten_digits_lenient_seven.1 "5551234567" "5551234567" (by decide)⟩

/-- C6 counterexample: on the text `"Tel: +1-555-123-4567, +1-555-123-4567"`
the strict extraction yields two entries, not one: the US-format pattern
normalizes the number to `5551234567` while the international pattern
normalizes it to `+15551234567`, and the two strings are distinct. -/
theorem extraction_two_entries_cex :
    (extract_phone_numbers "Tel: +1-555-123-4567, +1-555-123-4567").length = 2
    ∧ (extract_phone_numbers "Tel: +1-555-123-4567, +1-555-123-4567").length ≠ 1 := by
  constructor
  · decide
  · decide

/-- C6 amended: strict phone extraction is a pure function whose output is
duplicate-free (so re-running it yields the same deduplicated set), and on
`"Tel: +1-555-123-4567, +1-555-123-4567"` the output set has exactly two
entries, `5551234567` and `+15551234567`. -/
theorem extraction_idempotent_two_entries :
    (∀ text, (extract_phone_numbers text).Nodup)
    ∧ extract_phone_numbers "Tel: +1-555-123-4567, +1-555-123-4567" =
        ["5551234567", "+15551234567"] := by
  constructor
  · intro text
    exact List.nodup_dedup _
  · decide

/-- C7 evaluation at the failing input: a direct-strategy request with both
an amount and a delivery date crashes in query generation with
`AttributeError` (the missing `get_full_location_name`); the query-building
logic that follows the crashing call would, on the same input, produce
exactly 8 queries (3 base variants, one buy-deliver variant, and one
amount-suffixed counterpart of each). -/
theorem generate_queries_crash_at_direct_request :
    generate_supplier_queries "electronics" "100 units" "Berlin, Germany" "direct" "2025-01-01" =
      Except.error (PyError.attributeError "LocationService" "get_full_location_name")
    ∧ (build_supplier_queries "electronics" "100 units" "Berlin, Germany" "direct" "2025-01-01").length = 8 := by
  constructor
  · rfl
  · decide

/-- C8: the search adapter fails soft — a provider error yields an empty
result list, never an exception — and the fallback wrapper makes a second
provider call exactly when the first call returned no results, so at most
two provider calls are made per query. -/
theorem search_fails_soft_one_fallback (provider : Nat → Except String (List SearchResult))
    (max_results : Nat) (q : String) :
    (∀ k e, provider k = Except.error e → (serp_search provider max_results q k).1.results = [])
    ∧ (search_with_fallback provider max_results q).2 ≤ 2
    ∧ ((search_with_fallback provider max_results q).2 = 2 ↔
        (serp_search provider max_results q 0).1.results = []) := by
  refine ⟨?_, ?_, ?_⟩
  · intro k e he
    simp [serp_search, he]
  · unfold search_with_fallback
    by_cases h : (serp_search provider max_results q 0).1.results.isEmpty
    · rw [if_pos h, serp_search_snd, serp_search_snd]
    · rw [if_neg h, serp_search_snd]
      exact Nat.le_succ 1
  · unfold search_with_fallback
    by_cases h : (serp_search provider max_results q 0).1.results.isEmpty
    · rw [if_pos h, serp_search_snd, serp_search_snd]
      simp [List.isEmpty_iff.mp h]
    · rw [if_neg h, serp_search_snd]
      constructor
      · intro h2
        exact absurd h2 (by decide)
      · intro hempty
        exact absurd (List.isEmpty_iff.mpr hempty) h
  
/-- C8 witness: a provider that always errors produces an empty result list
on the first call. -/
theorem search_fails_soft_one_fallback_witness :
    (serp_search (fun _ => Except.error "boom") 5 "q" 0).1.results = [] :=
  (search_fails_soft_one_fallback (fun _ => Except.error "boom") 5 "q").1 0 "boom" rfl

/-- C9: the refinement stage analyzes at most the first 10 url-bearing hits,
its output is exactly the qualified ones among them (in order), the
exhaustive multi-page contact extraction is applied exactly to those
qualified hits, and every output record carries a classifier-qualified
analysis with the extractor's phones. -/
theorem analysis_caps_ten_extracts_qualified_only
    (classify : String → Except String PageAnalysis) (fetch : String → Option String)
    (extract_from_website : String → List String) (organic_results : List OrganicResult) :
    refine_search_results classify fetch extract_from_website organic_results =
      ((organic_results.filterMap organic_to_item).take 10).filterMap (fun item =>
        let analysis := check_webpage_requirements classify (fetch item.url)
        if analysis.meets_requirements then
          some ⟨item.title, item.url, { analysis with phone_numbers := extract_from_website item.url }⟩
        else none)
    ∧ (refine_search_results classify fetch extract_from_website organic_results).length ≤ 10
    ∧ ∀ b ∈ refine_search_results classify fetch extract_from_website organic_results,
        (check_webpage_requirements classify (fetch b.url)).meets_requirements = true
        ∧ b.analysis.phone_numbers = extract_from_website b.url := by
  refine ⟨refine_search_results_spec classify fetch extract_from_website organic_results, ?_, ?_⟩
  · rw [refine_search_results_spec]
    calc (((organic_results.filterMap organic_to_item).take 10).filterMap _).length
        ≤ ((organic_results.filterMap organic_to_item).take 10).length :=
          List.length_filterMap_le _ _
      _ ≤ 10 := List.length_take_le _ _
  · exact fun b hb => mem_refine_meets classify fetch extract_from_website organic_results b hb

/-- C10 counterexample: for the unmatched country code `"us"` the local
sources are the empty list, not a non-empty default global list (the
dictionary default of `get_local_sources` is `[]`). -/
theorem local_sources_default_empty_cex : get_local_sources "us" = [] := by decide

/-- C10 amended: `get_trusted_sources_by_region` always returns a non-empty
static per-region list — the default global list for a country matched by no
region — while `get_local_sources` returns the empty list for any country
outside its (CIS-only) map. -/
theorem sources_static_with_defaults (country_code : String) :
    get_trusted_sources_by_region country_code ≠ []
    ∧ (is_cis_country country_code = false → get_local_sources country_code = [])
    ∧ (is_cis_country country_code = false →
        country_code ∉ (["cn", "jp", "kr"] : List String) →
        country_code ∉ (["us", "ca"] : List String) →
        country_code ∉ (["de", "fr", "it", "es", "gb"] : List String) →
        get_trusted_sources_by_region country_code =
          ["alibaba.com", "globalsources.com", "made-in-china.com"]) := by
  refine ⟨?_, ?_, ?_⟩
  · unfold get_trusted_sources_by_region
    split_ifs <;> simp
  · intro hcis
    unfold get_local_sources
    cases hf : local_sources_map.find? (fun e => e.1 == country_code) with
    | none => rfl
    | some e =>
      exfalso
      have h1 := List.find?_some hf
      have h2 : e ∈ local_sources_map := List.mem_of_find?_eq_some hf
      have h3 : e.1 ∈ cis_countries := by
        have hmap := List.mem_map_of_mem Prod.fst h2
        have hkeys : local_sources_map.map Prod.fst = cis_countries := by decide
        rwa [hkeys] at hmap
      rw [eq_of_beq h1] at h3
      rw [show is_cis_country country_code = decide (country_code ∈ cis_countries) from rfl] at hcis
      exact absurd h3 (of_decide_eq_false hcis)
  · intro hcis hcn hus hde
    unfold get_trusted_sources_by_region
    rw [if_neg (by simp [hcis]), if_neg hcn, if_neg hus, if_neg hde]

/-- C10 witness: `"br"` (Brazil) is matched by no region; the trusted sources
fall back to the non-empty default global list while the local sources are
empty. -/
theorem sources_static_with_defaults_witness :
    get_local_sources "br" = []
    ∧ get_trusted_sources_by_region "br" =
        ["alibaba.com", "globalsources.com", "made-in-china.com"] :=
  ⟨(sources_static_with_defaults "br").2.1 (by decide),
   (sources_static_with_defaults "br").2.2 (by decide) (by decide) (by decide) (by decide)⟩

/-- C9 witness: a concrete refinement run — an accepting classifier, a
reachable page and one url-bearing hit — in which the single qualified
business carries the extractor's phone list, fed through the theorem. -/
theorem analysis_caps_ten_extracts_qualified_only_witness :
    (⟨"T", "http://x", ⟨true, "ok", ["5551234567"]⟩⟩ : Business) ∈
      refine_search_results (fun _ => Except.ok ⟨true, "ok", []⟩) (fun _ => some "content")
        (fun _ => ["5551234567"]) [OrganicResult.dict (some "T") none (some "http://x") none none]
    ∧ (check_webpage_requirements (fun _ => Except.ok ⟨true, "ok", []⟩)
        ((fun _ => some "content") (⟨"T", "http://x", ⟨true, "ok", ["5551234567"]⟩⟩ : Business).url)).meets_requirements = true :=
  ⟨by decide,
   ((analysis_caps_ten_extracts_qualified_only (fun _ => Except.ok ⟨true, "ok", []⟩)
      (fun _ => some "content") (fun _ => ["5551234567"])
      [OrganicResult.dict (some "T") none (some "http://x") none none]).2.2
      ⟨"T", "http://x", ⟨true, "ok", ["5551234567"]⟩⟩ (by decide)).1⟩
